import Mathlib

/-!
Verification of the express-cli project generator.

The embedding below translates the configuration model, the file-set
resolver, the manifest assembler and the project-name validator of the
repository into Lean.  Sources:

* `src/generators/expressGenerator.js` — class `ExpressGenerator`:
  the constructor (configuration defaults), `createConfigFiles`,
  `createSourceFiles`, `createDockerFiles` (file-set resolution) and
  `getPackageJsonContent` (manifest assembly).
* `src/services/templateService.js` — `getTemplateFiles` (the
  template-based file-set resolution).
* the CLI service (`validateProjectName`, regex-based variant).

Spec vocabulary ↔ code vocabulary:
  languageVariant source/typed      ↔ language 'javascript'/'typescript'
  authMode none/token/session       ↔ authentication 'none'/'jwt'/'session'
  databaseKind none/doc-store/
    relational-postgres/relational-mysql/relational-sqlite
                                    ↔ database 'none'/'mongodb'/'postgresql'/'mysql'/'sqlite'
  corsEnabled/validationEnabled/testingEnabled/containerEnabled
                                    ↔ cors/validation/testing/docker
-/

namespace ExpressCli

/-- Enum of `config.language`: `'javascript'` (spec: source) or
`'typescript'` (spec: typed). -/
inductive Language where
  | javascript
  | typescript
deriving DecidableEq, Repr

/-- Enum of `config.authentication`: `'none'`, `'jwt'` (spec: token) or
`'session'`. -/
inductive Auth where
  | none
  | jwt
  | session
deriving DecidableEq, Repr

/-- Enum of `config.database`: `'none'`, `'mongodb'` (spec: doc-store),
`'postgresql'`, `'mysql'`, `'sqlite'`. -/
inductive Database where
  | none
  | mongodb
  | postgresql
  | mysql
  | sqlite
deriving DecidableEq, Repr

/-- A valid Configuration: every field drawn from its enum
(`projectName` is omitted — neither the resolved file set nor the
dependency/script tables of `getPackageJsonContent` depend on it;
the name only appears interpolated into file contents). -/
structure Config where
  language : Language
  authentication : Auth
  database : Database
  cors : Bool
  validation : Bool
  testing : Bool
  docker : Bool
deriving DecidableEq, Repr

/-- Universal statements over `Language` are decided by checking the
two constructors. -/
instance forallLanguageDecidable (p : Language → Prop) [DecidablePred p] :
    Decidable (∀ l, p l) :=
  decidable_of_iff (p .javascript ∧ p .typescript)
    ⟨fun h l => match l with
      | .javascript => h.1
      | .typescript => h.2,
     fun h => ⟨h _, h _⟩⟩

/-- Universal statements over `Auth` are decided by checking the three
constructors. -/
instance forallAuthDecidable (p : Auth → Prop) [DecidablePred p] :
    Decidable (∀ a, p a) :=
  decidable_of_iff (p .none ∧ p .jwt ∧ p .session)
    ⟨fun h a => match a with
      | .none => h.1
      | .jwt => h.2.1
      | .session => h.2.2,
     fun h => ⟨h _, h _, h _⟩⟩

/-- Universal statements over `Database` are decided by checking the
five constructors. -/
instance forallDatabaseDecidable (p : Database → Prop) [DecidablePred p] :
    Decidable (∀ d, p d) :=
  decidable_of_iff (p .none ∧ p .mongodb ∧ p .postgresql ∧ p .mysql ∧ p .sqlite)
    ⟨fun h d => match d with
      | .none => h.1
      | .mongodb => h.2.1
      | .postgresql => h.2.2.1
      | .mysql => h.2.2.2.1
      | .sqlite => h.2.2.2.2,
     fun h => ⟨h _, h _, h _, h _, h _⟩⟩

/-- Universal statements over `Config` are decided by enumerating the
finite cross-product of its fields. -/
instance forallConfigDecidable (p : Config → Prop) [DecidablePred p] :
    Decidable (∀ c, p c) :=
  decidable_of_iff (∀ l a d f1 f2 f3 f4, p ⟨l, a, d, f1, f2, f3, f4⟩)
    ⟨fun h c => match c with
      | ⟨l, a, d, f1, f2, f3, f4⟩ => h l a d f1 f2 f3 f4,
     fun h l a d f1 f2 f3 f4 => h ⟨l, a, d, f1, f2, f3, f4⟩⟩

/-- File extension selected by the language, as in
`this.config.language === 'typescript' ? 'ts' : 'js'`
(`expressGenerator.js`, used throughout). -/
def ext (l : Language) : String :=
  match l with
  | .typescript => "ts"
  | .javascript => "js"

/-- Target paths written by `createConfigFiles`
(`expressGenerator.js` lines 72–98), in object-insertion order:
the four base files, the TypeScript extras when
`language === 'typescript'`, the server entry point, and
`jest.config.js` when `testing` is enabled. -/
def configFiles (c : Config) : List String :=
  ["package.json", ".env.example", ".gitignore", "README.md"]
    ++ (if c.language = .typescript then ["tsconfig.json", "src/types/index.ts"] else [])
    ++ ["server." ++ ext c.language]
    ++ (if c.testing then ["jest.config.js"] else [])

/-- Target paths written by `createSourceFiles`
(`expressGenerator.js` lines 100–147), in object-insertion order:
app and environment config always; database config when
`database !== 'none'`; auth middleware when
`authentication !== 'none'`; error handler, routes, controller and
service always; the `User` model when `database !== 'none'`; utils
always; the two test files when `testing` is enabled. -/
def sourceFiles (c : Config) : List String :=
  let e := ext c.language
  ["src/app." ++ e, "src/config/environment." ++ e]
    ++ (if c.database ≠ .none then ["src/config/database." ++ e] else [])
    ++ (if c.authentication ≠ .none then ["src/middleware/auth." ++ e] else [])
    ++ ["src/middleware/errorHandler." ++ e,
        "src/routes/index." ++ e,
        "src/routes/userRoutes." ++ e,
        "src/controllers/userController." ++ e,
        "src/services/userService." ++ e]
    ++ (if c.database ≠ .none then ["src/models/User." ++ e] else [])
    ++ ["src/utils/helpers." ++ e, "src/utils/constants." ++ e]
    ++ (if c.testing then
          ["tests/unit/user.test." ++ e, "tests/integration/api.test." ++ e]
        else [])

/-- Target paths written by `createDockerFiles`
(`expressGenerator.js` lines 1099–1109). -/
def dockerFiles : List String :=
  ["Dockerfile", "docker-compose.yml", ".dockerignore"]

/-- The full file-set resolution of one generation run: `generate()`
calls `createConfigFiles`, then `createSourceFiles`, then
`createDockerFiles` when `docker` is enabled
(`expressGenerator.js` lines 23–41). -/
def resolve (c : Config) : List String :=
  configFiles c ++ sourceFiles c ++ (if c.docker then dockerFiles else [])

/-- Target paths of `TemplateService.getTemplateFiles`
(`templateService.js` lines 84–201), in push order: fourteen base
entries, then auth middleware (`authentication !== 'none'`), the
`User` model and database config (`database !== 'none'`), the
TypeScript extras, the Jest config (`testing`), and the Docker files
(`docker`). -/
def getTemplateFilesTargets (c : Config) : List String :=
  let e := ext c.language
  ["package.json", ".env.example", ".gitignore", "README.md",
   "server." ++ e,
   "src/app." ++ e,
   "src/config/environment." ++ e,
   "src/middleware/errorHandler." ++ e,
   "src/routes/index." ++ e,
   "src/routes/userRoutes." ++ e,
   "src/controllers/userController." ++ e,
   "src/services/userService." ++ e,
   "src/utils/helpers." ++ e,
   "src/utils/constants." ++ e]
    ++ (if c.authentication ≠ .none then ["src/middleware/auth." ++ e] else [])
    ++ (if c.database ≠ .none then ["src/models/User." ++ e] else [])
    ++ (if c.database ≠ .none then ["src/config/database." ++ e] else [])
    ++ (if c.language = .typescript then ["tsconfig.json", "src/types/index.ts"] else [])
    ++ (if c.testing then ["jest.config.js"] else [])
    ++ (if c.docker then ["Dockerfile", "docker-compose.yml", ".dockerignore"] else [])

/-- The runtime `dependencies` table assembled by
`getPackageJsonContent` (`expressGenerator.js` lines 149–261), as
(name, version) pairs in insertion order: express and dotenv always;
cors when enabled; helmet, morgan and express-rate-limit always;
bcryptjs+jsonwebtoken for `'jwt'`,
express-session+connect-mongo+bcryptjs for `'session'`; the
database switch (mongoose / sequelize+driver); express-validator
when validation is enabled. -/
def dependencies (c : Config) : List (String × String) :=
  [("express", "^4.18.2"), ("dotenv", "^16.3.1")]
    ++ (if c.cors then [("cors", "^2.8.5")] else [])
    ++ [("helmet", "^7.1.0"), ("morgan", "^1.10.0"), ("express-rate-limit", "^7.1.5")]
    ++ (match c.authentication with
        | .jwt => [("bcryptjs", "^2.4.3"), ("jsonwebtoken", "^9.0.2")]
        | .session => [("express-session", "^1.17.3"), ("connect-mongo", "^5.1.0"),
                       ("bcryptjs", "^2.4.3")]
        | .none => [])
    ++ (match c.database with
        | .mongodb => [("mongoose", "^8.0.3")]
        | .postgresql => [("sequelize", "^6.35.0"), ("pg", "^8.11.3")]
        | .mysql => [("sequelize", "^6.35.0"), ("mysql2", "^3.6.5")]
        | .sqlite => [("sequelize", "^6.35.0"), ("sqlite3", "^5.1.6")]
        | .none => [])
    ++ (if c.validation then [("express-validator", "^7.0.1")] else [])

/-- The `devDependencies` table of `getPackageJsonContent`, in
insertion order: nodemon always; the TypeScript toolchain when
`language === 'typescript'`; `@types/cors` when cors and typescript;
the `@types` stubs of the chosen auth branch and of postgres when
typescript; jest+supertest (plus typescript stubs) when testing. -/
def devDependencies (c : Config) : List (String × String) :=
  [("nodemon", "^3.0.2")]
    ++ (if c.language = .typescript then
          [("typescript", "^5.3.2"), ("ts-node", "^10.9.1"),
           ("@types/node", "^20.8.0"), ("@types/express", "^4.17.20")]
        else [])
    ++ (if c.cors ∧ c.language = .typescript then [("@types/cors", "^2.8.15")] else [])
    ++ (match c.authentication, c.language with
        | .jwt, .typescript =>
            [("@types/bcryptjs", "^2.4.5"), ("@types/jsonwebtoken", "^9.0.5")]
        | .session, .typescript =>
            [("@types/express-session", "^1.17.10"), ("@types/bcryptjs", "^2.4.5")]
        | _, _ => [])
    ++ (if c.database = .postgresql ∧ c.language = .typescript then
          [("@types/pg", "^8.10.7")]
        else [])
    ++ (if c.testing then
          [("jest", "^29.7.0"), ("supertest", "^6.3.3")]
            ++ (if c.language = .typescript then
                  [("@types/jest", "^29.5.8"), ("@types/supertest", "^2.0.16"),
                   ("ts-jest", "^29.1.1")]
                else [])
        else [])

/-- The `scripts` table of `getPackageJsonContent`, in insertion
order: `start` and `dev` always (pointing at `dist/server.js` via
ts-node for typescript, at `server.js` otherwise); `build` and
`build:watch` when typescript; the three test scripts when testing. -/
def scripts (c : Config) : List (String × String) :=
  [("start", if c.language = .typescript then "node dist/server.js" else "node server.js"),
   ("dev", if c.language = .typescript then "nodemon --exec ts-node server.ts"
           else "nodemon server.js")]
    ++ (if c.language = .typescript then [("build", "tsc"), ("build:watch", "tsc -w")] else [])
    ++ (if c.testing then
          [("test", "jest"), ("test:watch", "jest --watch"), ("test:coverage", "jest --coverage")]
        else [])

/-- Names of the runtime dependencies of a configuration. -/
def depNames (c : Config) : List String := (dependencies c).map Prod.fst

/-- Names of the development dependencies of a configuration. -/
def devDepNames (c : Config) : List String := (devDependencies c).map Prod.fst

/-- Names of the scripts of a configuration. -/
def scriptNames (c : Config) : List String := (scripts c).map Prod.fst

/-- Raw input to the generator: the `config` object handed to
`new ExpressGenerator(projectName, config)`; a field the caller did
not set is `Option.none`.  Field values are unvalidated JavaScript
strings/booleans. -/
structure RawConfig where
  language : Option String
  authentication : Option String
  database : Option String
  cors : Option Bool
  validation : Option Bool
  testing : Option Bool
  docker : Option Bool
deriving DecidableEq, Repr

/-- The normalized configuration exactly as the constructor stores it:
plain string fields, since no enum validation happens anywhere in the
source. -/
structure StrConfig where
  language : String
  authentication : String
  database : String
  cors : Bool
  validation : Bool
  testing : Bool
  docker : Bool
deriving DecidableEq, Repr

/-- The constructor of `ExpressGenerator` (`expressGenerator.js` lines
8–21): `this.config = { language: 'javascript', authentication: 'jwt',
database: 'mongodb', cors: true, validation: true, testing: true,
docker: false, ...config }`.  Each raw field, when present, overrides
the default by object spread; nothing is checked or rejected. -/
def normalize (raw : RawConfig) : StrConfig :=
  ⟨raw.language.getD "javascript",
   raw.authentication.getD "jwt",
   raw.database.getD "mongodb",
   raw.cors.getD true,
   raw.validation.getD true,
   raw.testing.getD true,
   raw.docker.getD false⟩

/-- A raw input with no field set (`new ExpressGenerator(name)` with
the config argument defaulted to `{}`). -/
def emptyRaw : RawConfig :=
  ⟨Option.none, Option.none, Option.none, Option.none, Option.none, Option.none, Option.none⟩

/-- Characters admitted by the CLI name regex `/^[a-zA-Z0-9_-]+$/`
(`cliService`, regex variant, line 47). -/
def isValidNameChar (ch : Char) : Bool :=
  ch.isAlpha || ch.isDigit || ch == '_' || ch == '-'

/-- Whether the first character is a letter, as tested by
`/^[a-zA-Z]/` (`cliService`, regex variant, line 56). -/
def startsWithLetter (name : String) : Bool :=
  match name.toList with
  | [] => false
  | ch :: _ => ch.isAlpha

/-- The reserved project names (`cliService`, regex variant, line 72). -/
def reservedNames : List String :=
  ["node_modules", "src", "dist", "build", "test", "tests"]

/-- Character-wise lowercasing, modelling JavaScript's
`name.toLowerCase()` (the two agree on the ASCII-only names that reach
the reserved-name check). -/
def toLowerStr (s : String) : String :=
  String.mk (s.data.map Char.toLower)

/-- Result record of `validateProjectName`: the `isValid` flag and the
optional `error` message. -/
structure NameValidation where
  isValid : Bool
  error : Option String
deriving DecidableEq, Repr

/-- `CLIService.validateProjectName` (regex variant, lines 40–81):
empty check, the character regex `/^[a-zA-Z0-9_-]+$/`, the
starts-with-letter check, the 50-character limit, and the reserved-name
check against the lowercased name, in that order. -/
def validateProjectName (name : String) : NameValidation :=
  if name.length = 0 then
    ⟨false, some "Project name cannot be empty"⟩
  else if !(name.toList.all isValidNameChar) then
    ⟨false, some "Project name can only contain letters, numbers, hyphens, and underscores"⟩
  else if !(startsWithLetter name) then
    ⟨false, some "Project name must start with a letter"⟩
  else if name.length > 50 then
    ⟨false, some "Project name must be 50 characters or less"⟩
  else if reservedNames.contains (toLowerStr name) then
    ⟨false, some ("\"" ++ name ++ "\" is a reserved name. Please choose a different name.")⟩
  else
    ⟨true, Option.none⟩

/-- Whether `CLIService.run` reaches the generator core for a given
name: `run` calls `process.exit(1)` before `new ExpressGenerator(...)`
whenever `validateProjectName` reports invalid (`cliService`, regex
variant, lines 17–27). -/
def runInvokesGenerator (name : String) : Bool :=
  (validateProjectName name).isValid

/-- Whether a name matches the regex `^[A-Za-z][A-Za-z0-9_-]*$` of the
spec's naming rule. -/
def nameMatchesRegex (name : String) : Bool :=
  match name.toList with
  | [] => false
  | ch :: rest => ch.isAlpha && rest.all isValidNameChar

/-- Modelled from the spec's words for the name-acceptance rule (claim
comparison only): non-empty, matches `^[A-Za-z][A-Za-z0-9_-]*$`,
length at most 50, and not one of the reserved names, read literally
(no lowercasing). -/
def specNameAccepted (name : String) : Bool :=
  !(name == "") && nameMatchesRegex name && name.length ≤ 50
    && !(reservedNames.contains name)

/-- Project-internal module references embedded in the entry-point
content of `getServerContent` (`expressGenerator.js` lines 320–334):
`require('./src/app')` and `require('./src/config/database')`, given
relative to the project root and without extension.  The content is
the same fixed string for every configuration. -/
def serverContentLocalRefs : List String :=
  ["src/app", "src/config/database"]

/-- Project-internal module references embedded in the auth-middleware
content of `getAuthMiddlewareContent` (`expressGenerator.js` lines
413–443): `require('../models/User')`, `require('../config/environment')`,
`require('../utils/helpers')` and `require('../utils/constants')`,
resolved against the file's own directory `src/middleware/` to
project-root-relative form, without extension. -/
def authMiddlewareLocalRefs : List String :=
  ["src/models/User", "src/config/environment", "src/utils/helpers", "src/utils/constants"]

/-- A module reference resolves for a configuration when the referenced
path, completed with the configuration's extension, is produced by the
file-set resolution. -/
def refResolves (c : Config) (r : String) : Prop :=
  (r ++ "." ++ ext c.language) ∈ resolve c

instance (c : Config) (r : String) : Decidable (refResolves c r) :=
  inferInstanceAs (Decidable ((r ++ "." ++ ext c.language) ∈ resolve c))

/-- Scenario A of the spec: source variant, token auth, doc-store
database, features at the spec's documented defaults (cors and
validation on, testing and docker off). -/
def scenarioA : Config := ⟨.javascript, .jwt, .mongodb, true, true, false, false⟩

/-- The files Scenario A names, in the resolution's order. -/
def scenarioAFiles : List String :=
  ["package.json", ".env.example", ".gitignore", "README.md", "server.js",
   "src/app.js", "src/config/environment.js", "src/config/database.js",
   "src/middleware/auth.js", "src/middleware/errorHandler.js",
   "src/routes/index.js", "src/routes/userRoutes.js",
   "src/controllers/userController.js", "src/services/userService.js",
   "src/models/User.js", "src/utils/helpers.js", "src/utils/constants.js"]

/-- A configuration with token auth but no database. -/
def noDbConfig : Config := ⟨.javascript, .jwt, .none, true, true, false, false⟩

/-- A configuration with session auth and no database. -/
def sessionNoDb : Config := ⟨.javascript, .session, .none, true, true, false, false⟩

/-- A raw input whose authentication field carries a value outside the
enum. -/
def rawBogusAuth : RawConfig :=
  ⟨Option.none, some "oauth", Option.none, Option.none, Option.none, Option.none, Option.none⟩

/-- A raw input whose three enum-valued fields all carry a value
outside the respective enums. -/
def rawAllBogus : RawConfig :=
  ⟨some "klingon", some "klingon", some "klingon", Option.none, Option.none, Option.none,
   Option.none⟩

/-- A string's length is zero exactly when it is the empty string. -/
lemma length_zero_iff_empty (s : String) : s.length = 0 ↔ s = "" := by
  constructor
  · intro h
    apply String.ext
    exact List.length_eq_zero.mp h
  · intro h
    subst h
    rfl

/-- The spec's name regex is the conjunction of the validator's two
character checks. -/
lemma nameMatchesRegex_eq (name : String) :
    nameMatchesRegex name
      = (startsWithLetter name && name.toList.all isValidNameChar) := by
  cases hl : name.data with
  | nil => simp [nameMatchesRegex, startsWithLetter, String.toList, hl]
  | cons c cs =>
    cases hc : c.isAlpha <;>
      simp [nameMatchesRegex, startsWithLetter, String.toList, hl, hc,
        isValidNameChar, List.all_cons]

set_option maxHeartbeats 4000000 in
/-- Claim C1: for every valid Configuration, file inclusion and
manifest inclusion agree on every conditional feature — the
database-config and user-model files are resolved exactly when a
persistence dependency (mongoose, or sequelize plus the kind-specific
driver) is in the manifest; the auth-middleware file exactly when the
credential/token dependencies of the active mode are; the test files
exactly when the test-framework dependencies are; the typed-variant
extra files exactly when the compiler and type-stub dependencies
are. -/
theorem feature_manifest_agreement : ∀ c : Config,
    ((("src/config/database." ++ ext c.language) ∈ resolve c ∧
      ("src/models/User." ++ ext c.language) ∈ resolve c) ↔
        ("mongoose" ∈ depNames c ∨ "sequelize" ∈ depNames c)) ∧
    (("mongoose" ∈ depNames c) ↔ c.database = .mongodb) ∧
    ((("sequelize" ∈ depNames c) ∧ ("pg" ∈ depNames c)) ↔ c.database = .postgresql) ∧
    ((("sequelize" ∈ depNames c) ∧ ("mysql2" ∈ depNames c)) ↔ c.database = .mysql) ∧
    ((("sequelize" ∈ depNames c) ∧ ("sqlite3" ∈ depNames c)) ↔ c.database = .sqlite) ∧
    ((("src/middleware/auth." ++ ext c.language) ∈ resolve c) ↔
      ((("bcryptjs" ∈ depNames c) ∧ ("jsonwebtoken" ∈ depNames c)) ∨
       (("express-session" ∈ depNames c) ∧ ("bcryptjs" ∈ depNames c)))) ∧
    ((("bcryptjs" ∈ depNames c) ∧ ("jsonwebtoken" ∈ depNames c)) ↔ c.authentication = .jwt) ∧
    (("express-session" ∈ depNames c) ↔ c.authentication = .session) ∧
    ((("tests/unit/user.test." ++ ext c.language) ∈ resolve c ∧
      ("tests/integration/api.test." ++ ext c.language) ∈ resolve c) ↔
        (("jest" ∈ devDepNames c) ∧ ("supertest" ∈ devDepNames c))) ∧
    (("jest" ∈ devDepNames c) ↔ c.testing = true) ∧
    (("tsconfig.json" ∈ resolve c ∧ "src/types/index.ts" ∈ resolve c) ↔
      (("typescript" ∈ devDepNames c) ∧ ("@types/node" ∈ devDepNames c))) ∧
    (("typescript" ∈ devDepNames c) ↔ c.language = .typescript) := by
  have hdb : ∀ c : Config,
      ((("src/config/database." ++ ext c.language) ∈ resolve c ∧
        ("src/models/User." ++ ext c.language) ∈ resolve c) ↔
          ("mongoose" ∈ depNames c ∨ "sequelize" ∈ depNames c)) ∧
      (("mongoose" ∈ depNames c) ↔ c.database = .mongodb) ∧
      ((("sequelize" ∈ depNames c) ∧ ("pg" ∈ depNames c)) ↔ c.database = .postgresql) ∧
      ((("sequelize" ∈ depNames c) ∧ ("mysql2" ∈ depNames c)) ↔ c.database = .mysql) ∧
      ((("sequelize" ∈ depNames c) ∧ ("sqlite3" ∈ depNames c)) ↔ c.database = .sqlite) := by
    decide
  have hauth : ∀ c : Config,
      ((("src/middleware/auth." ++ ext c.language) ∈ resolve c) ↔
        ((("bcryptjs" ∈ depNames c) ∧ ("jsonwebtoken" ∈ depNames c)) ∨
         (("express-session" ∈ depNames c) ∧ ("bcryptjs" ∈ depNames c)))) ∧
      ((("bcryptjs" ∈ depNames c) ∧ ("jsonwebtoken" ∈ depNames c)) ↔
        c.authentication = .jwt) ∧
      (("express-session" ∈ depNames c) ↔ c.authentication = .session) := by
    decide
  have htest : ∀ c : Config,
      ((("tests/unit/user.test." ++ ext c.language) ∈ resolve c ∧
        ("tests/integration/api.test." ++ ext c.language) ∈ resolve c) ↔
          (("jest" ∈ devDepNames c) ∧ ("supertest" ∈ devDepNames c))) ∧
      (("jest" ∈ devDepNames c) ↔ c.testing = true) := by
    decide
  have hts : ∀ c : Config,
      (("tsconfig.json" ∈ resolve c ∧ "src/types/index.ts" ∈ resolve c) ↔
        (("typescript" ∈ devDepNames c) ∧ ("@types/node" ∈ devDepNames c))) ∧
      (("typescript" ∈ devDepNames c) ↔ c.language = .typescript) := by
    decide
  intro c
  exact ⟨(hdb c).1, (hdb c).2.1, (hdb c).2.2.1, (hdb c).2.2.2.1, (hdb c).2.2.2.2,
    (hauth c).1, (hauth c).2.1, (hauth c).2.2, (htest c).1, (htest c).2,
    (hts c).1, (hts c).2⟩

/-- Claim C2: referential integrity fails where the claim asserts it
holds — with databaseKind none, the entry-point content still embeds a
reference to the database-config file and the (still generated)
auth-middleware content still embeds a reference to the user-model
file, yet neither referenced path is in the resolver's output. -/
theorem dangling_references_without_database :
    ("server.js" ∈ resolve noDbConfig) ∧
    ("src/middleware/auth.js" ∈ resolve noDbConfig) ∧
    "src/config/database" ∈ serverContentLocalRefs ∧
    ¬ refResolves noDbConfig "src/config/database" ∧
    "src/models/User" ∈ authMiddlewareLocalRefs ∧
    ¬ refResolves noDbConfig "src/models/User" := by decide

/-- Claim C3 (counterexample): Scenario A resolves seventeen files,
not the sixteen the claim states. -/
theorem scenarioA_file_count_is_seventeen :
    (resolve scenarioA).length = 17 ∧ ¬((resolve scenarioA).length = 16) := by decide

/-- Claim C3 (amended): Scenario A resolves exactly the seventeen
stated files, and its manifest has a persistence dependency and the
token/credential dependencies but no compiler dependency. -/
theorem scenarioA_resolution_and_manifest :
    resolve scenarioA = scenarioAFiles ∧
    List.Perm (getTemplateFilesTargets scenarioA) scenarioAFiles ∧
    "mongoose" ∈ depNames scenarioA ∧ "bcryptjs" ∈ depNames scenarioA ∧
    "jsonwebtoken" ∈ depNames scenarioA ∧
    "typescript" ∉ devDepNames scenarioA ∧ "ts-node" ∉ devDepNames scenarioA := by decide

/-- Claim C4 (counterexample): a Configuration built from an empty raw
input has testing enabled, not disabled as the claim states. -/
theorem default_testing_is_enabled :
    normalize emptyRaw = ⟨"javascript", "jwt", "mongodb", true, true, true, false⟩ ∧
    ¬((normalize emptyRaw).testing = false) := by decide

/-- Claim C4 (amended): normalize defaults every unset field to
language javascript (source), authentication jwt (token), database
mongodb (doc-store), cors true, validation true, testing TRUE, docker
false. -/
theorem normalize_field_defaults :
    (∀ raw : RawConfig, raw.language = Option.none →
      (normalize raw).language = "javascript") ∧
    (∀ raw : RawConfig, raw.authentication = Option.none →
      (normalize raw).authentication = "jwt") ∧
    (∀ raw : RawConfig, raw.database = Option.none →
      (normalize raw).database = "mongodb") ∧
    (∀ raw : RawConfig, raw.cors = Option.none → (normalize raw).cors = true) ∧
    (∀ raw : RawConfig, raw.validation = Option.none → (normalize raw).validation = true) ∧
    (∀ raw : RawConfig, raw.testing = Option.none → (normalize raw).testing = true) ∧
    (∀ raw : RawConfig, raw.docker = Option.none → (normalize raw).docker = false) ∧
    normalize emptyRaw = ⟨"javascript", "jwt", "mongodb", true, true, true, false⟩ := by
  refine ⟨?_, ?_, ?_, ?_, ?_, ?_, ?_, rfl⟩ <;>
    · intro raw h
      simp [normalize, h]

/-- Witness for `normalize_field_defaults` at the empty raw input. -/
theorem normalize_field_defaults_witness :
    (normalize emptyRaw).language = "javascript" ∧
    (normalize emptyRaw).authentication = "jwt" ∧
    (normalize emptyRaw).database = "mongodb" ∧
    (normalize emptyRaw).cors = true ∧
    (normalize emptyRaw).validation = true ∧
    (normalize emptyRaw).testing = true ∧
    (normalize emptyRaw).docker = false :=
  ⟨normalize_field_defaults.1 emptyRaw rfl,
   normalize_field_defaults.2.1 emptyRaw rfl,
   normalize_field_defaults.2.2.1 emptyRaw rfl,
   normalize_field_defaults.2.2.2.1 emptyRaw rfl,
   normalize_field_defaults.2.2.2.2.1 emptyRaw rfl,
   normalize_field_defaults.2.2.2.2.2.1 emptyRaw rfl,
   normalize_field_defaults.2.2.2.2.2.2.1 emptyRaw rfl⟩

/-- Claim C5 (counterexample): a raw input with the out-of-enum
authentication value "oauth" is not rejected — normalize returns a
Configuration that simply carries the value through, and no
ValidationError exists on this path. -/
theorem normalize_returns_config_on_unknown_enum :
    normalize rawBogusAuth = ⟨"javascript", "oauth", "mongodb", true, true, true, false⟩ := by
  decide

/-- Claim C5 (amended): normalize performs no enum validation — any
string supplied for languageVariant, authMode or databaseKind is
passed through into the Configuration unchanged, and no error value is
ever produced. -/
theorem normalize_no_enum_validation :
    ∀ (raw : RawConfig) (s : String),
      (raw.language = some s → (normalize raw).language = s) ∧
      (raw.authentication = some s → (normalize raw).authentication = s) ∧
      (raw.database = some s → (normalize raw).database = s) := by
  intro raw s
  refine ⟨fun h => ?_, fun h => ?_, fun h => ?_⟩ <;> simp [normalize, h]

/-- Witness for `normalize_no_enum_validation` at a raw input whose
three enum fields all carry the out-of-enum value "klingon". -/
theorem normalize_no_enum_validation_witness :
    (normalize rawAllBogus).language = "klingon" ∧
    (normalize rawAllBogus).authentication = "klingon" ∧
    (normalize rawAllBogus).database = "klingon" :=
  ⟨(normalize_no_enum_validation rawAllBogus "klingon").1 rfl,
   (normalize_no_enum_validation rawAllBogus "klingon").2.1 rfl,
   (normalize_no_enum_validation rawAllBogus "klingon").2.2 rfl⟩

/-- Claim C6 (counterexample): the name "SRC" satisfies every condition
of the claim's acceptance rule read literally (non-empty, matches the
regex, short enough, not one of the lowercase reserved names), yet the
validator rejects it, because the code compares the lowercased name
against the reserved list. -/
theorem uppercase_reserved_name_rejected :
    specNameAccepted "SRC" = true ∧ (validateProjectName "SRC").isValid = false := by decide

/-- Claim C6 (amended): a name is accepted exactly when it is
non-empty, matches the regex, has length at most 50, and its
lowercased form is not reserved; the input "123project" yields the
must-start-with-a-letter error and the generator core is not
invoked. -/
theorem validateProjectName_characterization :
    (∀ name : String,
      (validateProjectName name).isValid = true ↔
        (name ≠ "" ∧ nameMatchesRegex name = true ∧ name.length ≤ 50 ∧
          reservedNames.contains (toLowerStr name) = false)) ∧
    validateProjectName "123project"
      = ⟨false, some "Project name must start with a letter"⟩ ∧
    runInvokesGenerator "123project" = false := by
  refine ⟨?_, by decide, by decide⟩
  intro name
  rw [nameMatchesRegex_eq]
  unfold validateProjectName
  split_ifs with h1 h2 h3 h4 h5 <;>
    simp_all [length_zero_iff_empty, Nat.not_lt]

/-- Claim C7: the scripts table has a build step exactly for the typed
variant, whose start script runs the compiled output, while the source
variant's start script runs the uncompiled entry point. -/
theorem scripts_consistent_with_language : ∀ c : Config,
    (("build" ∈ scriptNames c) ↔ c.language = .typescript) ∧
    ((("build", "tsc") ∈ scripts c) ↔ c.language = .typescript) ∧
    ((("start", "node dist/server.js") ∈ scripts c) ↔ c.language = .typescript) ∧
    ((("start", "node server.js") ∈ scripts c) ↔ c.language = .javascript) := by decide

/-- Claim C8: file-set resolution and manifest assembly evaluate to a
well-formed result on every valid Configuration (both are total
functions of the Configuration, with no failing path; the theorem
exhibits, over the whole configuration space, the always-included file
entries and the baseline manifest entries). -/
theorem resolver_and_assembler_total : ∀ c : Config,
    "package.json" ∈ resolve c ∧ ("server." ++ ext c.language) ∈ resolve c ∧
    "package.json" ∈ getTemplateFilesTargets c ∧
    "express" ∈ depNames c ∧ "nodemon" ∈ devDepNames c ∧
    "start" ∈ scriptNames c ∧ "dev" ∈ scriptNames c := by decide

/-- Claim C9: every session-auth configuration's runtime dependencies
include connect-mongo, whatever the database kind. -/
theorem session_manifest_includes_connect_mongo :
    ∀ c : Config, c.authentication = .session →
      ("connect-mongo", "^5.1.0") ∈ dependencies c := by decide

/-- Witness for `session_manifest_includes_connect_mongo` at a
session-auth configuration whose database kind is none. -/
theorem session_manifest_includes_connect_mongo_witness :
    sessionNoDb.authentication = .session ∧
    ("connect-mongo", "^5.1.0") ∈ dependencies sessionNoDb :=
  ⟨rfl, session_manifest_includes_connect_mongo sessionNoDb rfl⟩

set_option maxHeartbeats 4000000 in
/-- Claim C10: for every configuration, neither file-set resolution
produces a duplicated target path. -/
theorem resolved_target_paths_nodup :
    ∀ c : Config, (resolve c).Nodup ∧ (getTemplateFilesTargets c).Nodup := by
  have key : ∀ (l : Language) (a : Auth) (d : Database) (f3 f4 : Bool),
      (resolve ⟨l, a, d, true, true, f3, f4⟩).Nodup ∧
        (getTemplateFilesTargets ⟨l, a, d, true, true, f3, f4⟩).Nodup := by decide
  intro c
  obtain ⟨l, a, d, f1, f2, f3, f4⟩ := c
  exact key l a d f3 f4

end ExpressCli
